import Mathlib

/-!
Shallow embedding of the TDX shadow-register engine
(`openhcl/virt_mshv_vtl/src/processor/tdx/virtual_register.rs`).

Machine integers (`u64`) are modelled as `Nat`; the only operations the code
performs on them are bitwise (`&`, `|`, `^`, `!`), so no overflow arithmetic is
needed.  Bitwise complement `!x` on `u64` is modelled as `x ^^^ (2^64 - 1)`.
Hardware (the VMCS) is modelled as a total map from (VTL, field) to a value,
and the two hardware-access primitives `read_vmcs64` / `write_vmcs64` act on
it; `write` additionally returns the ordered list of hardware calls it issued,
so that claims about which accesses occur are statable.
-/

namespace TdxVirtReg

/-- All-ones 64-bit value, the model of `u64::MAX` and of the literal `!0`. -/
def U64_MAX : Nat := 2 ^ 64 - 1

/-- Bitwise complement at width 64, the model of `!x` on `u64`. -/
def compl64 (x : Nat) : Nat := x ^^^ U64_MAX

/-- Architecture-defined CR0 bit (x86defs crate, external to the engine). -/
def X64_CR0_PE : Nat := 0x1

/-- Architecture-defined CR0 bit. -/
def X64_CR0_MP : Nat := 0x2

/-- Architecture-defined CR0 bit. -/
def X64_CR0_EM : Nat := 0x4

/-- Architecture-defined CR0 bit. -/
def X64_CR0_TS : Nat := 0x8

/-- Architecture-defined CR0 bit. -/
def X64_CR0_ET : Nat := 0x10

/-- Architecture-defined CR0 bit. -/
def X64_CR0_WP : Nat := 0x10000

/-- Architecture-defined CR0 bit. -/
def X64_CR0_AM : Nat := 0x40000

/-- Architecture-defined CR0 bit. -/
def X64_CR0_PG : Nat := 0x80000000

/-- Architecture-defined CR4 bit. -/
def X64_CR4_VME : Nat := 0x1

/-- Architecture-defined CR4 bit. -/
def X64_CR4_PVI : Nat := 0x2

/-- Architecture-defined CR4 bit. -/
def X64_CR4_TSD : Nat := 0x4

/-- Architecture-defined CR4 bit. -/
def X64_CR4_DE : Nat := 0x8

/-- Architecture-defined CR4 bit. -/
def X64_CR4_PSE : Nat := 0x10

/-- Architecture-defined CR4 bit. -/
def X64_CR4_PAE : Nat := 0x20

/-- Architecture-defined CR4 bit. -/
def X64_CR4_PGE : Nat := 0x80

/-- Architecture-defined CR4 bit. -/
def X64_CR4_PCE : Nat := 0x100

/-- Architecture-defined CR4 bit. -/
def X64_CR4_FXSR : Nat := 0x200

/-- Architecture-defined CR4 bit. -/
def X64_CR4_XMMEXCPT : Nat := 0x400

/-- Architecture-defined CR4 bit. -/
def X64_CR4_UMIP : Nat := 0x800

/-- Architecture-defined CR4 bit. -/
def X64_CR4_LA57 : Nat := 0x1000

/-- Architecture-defined CR4 bit. -/
def X64_CR4_RWFSGS : Nat := 0x10000

/-- Architecture-defined CR4 bit. -/
def X64_CR4_PCIDE : Nat := 0x20000

/-- Architecture-defined CR4 bit. -/
def X64_CR4_OSXSAVE : Nat := 0x40000

/-- Architecture-defined CR4 bit. -/
def X64_CR4_SMEP : Nat := 0x100000

/-- Architecture-defined CR4 bit. -/
def X64_CR4_SMAP : Nat := 0x200000

/-- Architecture-defined CR4 bit. -/
def X64_CR4_CET : Nat := 0x800000

/-- Guest VTLs (from the hcl crate): VTL0 and VTL1. -/
inductive GuestVtl
  | Vtl0
  | Vtl1
deriving DecidableEq

/-- The VMCS fields the engine touches (from x86defs::vmx::VmcsField). -/
inductive VmcsField
  | VMX_VMCS_GUEST_CR0
  | VMX_VMCS_GUEST_CR4
  | VMX_VMCS_CR0_READ_SHADOW
  | VMX_VMCS_CR4_READ_SHADOW
deriving DecidableEq

/-- Registers that can be virtual and shadowed. -/
inductive ShadowedRegister
  | Cr0
  | Cr4
deriving DecidableEq

/-- Display name of the register (for the error message). -/
def ShadowedRegister.name : ShadowedRegister → String
  | .Cr0 => "cr0"
  | .Cr4 => "cr4"

/-- VMCS field holding the physical register value. -/
def ShadowedRegister.physical_vmcs_field : ShadowedRegister → VmcsField
  | .Cr0 => .VMX_VMCS_GUEST_CR0
  | .Cr4 => .VMX_VMCS_GUEST_CR4

/-- VMCS field holding the shadow register value. -/
def ShadowedRegister.shadow_vmcs_field : ShadowedRegister → VmcsField
  | .Cr0 => .VMX_VMCS_CR0_READ_SHADOW
  | .Cr4 => .VMX_VMCS_CR4_READ_SHADOW

/-- Control register bits that are guest owned by default, exactly the
disjunction of x86defs constants in the source. -/
def ShadowedRegister.guest_owned_mask : ShadowedRegister → Nat
  | .Cr0 =>
      X64_CR0_ET ||| X64_CR0_MP ||| X64_CR0_EM ||| X64_CR0_TS |||
      X64_CR0_WP ||| X64_CR0_AM ||| X64_CR0_PE ||| X64_CR0_PG
  | .Cr4 =>
      X64_CR4_VME ||| X64_CR4_PVI ||| X64_CR4_TSD ||| X64_CR4_DE |||
      X64_CR4_PSE ||| X64_CR4_PAE ||| X64_CR4_PGE ||| X64_CR4_PCE |||
      X64_CR4_FXSR ||| X64_CR4_XMMEXCPT ||| X64_CR4_UMIP ||| X64_CR4_LA57 |||
      X64_CR4_RWFSGS ||| X64_CR4_PCIDE ||| X64_CR4_OSXSAVE ||| X64_CR4_SMEP |||
      X64_CR4_SMAP ||| X64_CR4_CET

/-- Hardware state: the VMCS, a total map from (VTL, field) to a u64 value. -/
structure Hw where
  regs : GuestVtl → VmcsField → Nat

/-- Model of `ProcessorRunner::read_vmcs64`. -/
def Hw.read_vmcs64 (hw : Hw) (vtl : GuestVtl) (field : VmcsField) : Nat :=
  hw.regs vtl field

/-- Model of `ProcessorRunner::write_vmcs64`: writes only the bits set in
`mask` (a mask of all ones is a full overwrite, truncating to 64 bits). -/
def Hw.write_vmcs64 (hw : Hw) (vtl : GuestVtl) (field : VmcsField)
    (mask value : Nat) : Hw :=
  ⟨fun v f =>
    if v = vtl ∧ f = field then (hw.regs v f &&& compl64 mask) ||| (value &&& mask)
    else hw.regs v f⟩

/-- One hardware access issued by the engine, for call accounting. -/
inductive HwCall
  | readCall (vtl : GuestVtl) (field : VmcsField)
  | writeCall (vtl : GuestVtl) (field : VmcsField) (mask value : Nat)
deriving DecidableEq

/-- Whether this call is a `write_vmcs64` to the given field. -/
def HwCall.isWriteTo (field : VmcsField) : HwCall → Bool
  | .readCall _ _ => false
  | .writeCall _ f _ _ => f = field

/-- A virtual register that is shadowed by the virtstack. -/
structure VirtualRegister where
  register : ShadowedRegister
  vtl : GuestVtl
  shadow_value : Nat
  allowed_bits : Option Nat
deriving DecidableEq

/-- The error type of `VirtualRegister::write`. -/
inductive VirtualRegisterError
  | InvalidValue (value : Nat) (regName : String)
deriving DecidableEq

/-- Model of `VirtualRegister::new`: plain value construction. -/
def VirtualRegister.new (reg : ShadowedRegister) (vtl : GuestVtl)
    (initial_value : Nat) (allowed_bits : Option Nat) : VirtualRegister :=
  { register := reg
    vtl := vtl
    shadow_value := initial_value
    allowed_bits := allowed_bits }

/-- Model of `VirtualRegister::write`.  Returns the Rust result, the updated
register, the updated hardware state (unchanged on the error path), and the
ordered list of hardware calls issued. -/
def VirtualRegister.write (r : VirtualRegister) (value : Nat) (hw : Hw) :
    Except VirtualRegisterError Unit × VirtualRegister × Hw × List HwCall :=
  if value &&& compl64 (r.allowed_bits.getD U64_MAX) ≠ 0 then
    (Except.error (.InvalidValue value r.register.name), r, hw, [])
  else
    let old_physical_reg := hw.read_vmcs64 r.vtl r.register.physical_vmcs_field
    let guest_owned_mask := r.register.guest_owned_mask
    if (old_physical_reg ^^^ value) &&& guest_owned_mask ≠ 0 then
      let new_physical_reg :=
        (old_physical_reg &&& compl64 guest_owned_mask) ||| (value &&& guest_owned_mask)
      let hw1 := hw.write_vmcs64 r.vtl r.register.physical_vmcs_field U64_MAX new_physical_reg
      let hw2 := hw1.write_vmcs64 r.vtl r.register.shadow_vmcs_field U64_MAX value
      (Except.ok (), { r with shadow_value := value }, hw2,
        [HwCall.readCall r.vtl r.register.physical_vmcs_field,
         HwCall.writeCall r.vtl r.register.physical_vmcs_field U64_MAX new_physical_reg,
         HwCall.writeCall r.vtl r.register.shadow_vmcs_field U64_MAX value])
    else
      let hw2 := hw.write_vmcs64 r.vtl r.register.shadow_vmcs_field U64_MAX value
      (Except.ok (), { r with shadow_value := value }, hw2,
        [HwCall.readCall r.vtl r.register.physical_vmcs_field,
         HwCall.writeCall r.vtl r.register.shadow_vmcs_field U64_MAX value])

/-- Model of `VirtualRegister::read`: host-owned bits from the shadow,
guest-owned bits from the physical register.  Pure: takes the register and
hardware state immutably and returns only the value. -/
def VirtualRegister.read (r : VirtualRegister) (hw : Hw) : Nat :=
  let physical_reg := hw.read_vmcs64 r.vtl r.register.physical_vmcs_field
  let guest_owned_mask := r.register.guest_owned_mask
  (r.shadow_value &&& compl64 r.register.guest_owned_mask) |||
    (physical_reg &&& guest_owned_mask)

/-! Helper lemmas about the 64-bit model. -/

/-- Bits of the 64-bit complement. -/
theorem testBit_compl64 (x i : Nat) :
    (compl64 x).testBit i = (x.testBit i != decide (i < 64)) := by
  simp only [compl64, U64_MAX, Nat.testBit_xor, Nat.testBit_two_pow_sub_one]

/-- A value below `2 ^ 64` has no bits at positions 64 and above. -/
theorem testBit_high {m : Nat} (hm : m < 2 ^ 64) {i : Nat} (hi : 64 ≤ i) :
    m.testBit i = false :=
  Nat.testBit_lt_two_pow
    (lt_of_lt_of_le hm (Nat.pow_le_pow_right (by norm_num) hi))

/-- The guest-owned masks are 64-bit values. -/
theorem guest_owned_mask_lt (reg : ShadowedRegister) :
    reg.guest_owned_mask < 2 ^ 64 := by
  cases reg <;> decide

/-- The physical and shadow VMCS fields of a register differ. -/
theorem physical_ne_shadow (reg : ShadowedRegister) :
    reg.physical_vmcs_field ≠ reg.shadow_vmcs_field := by
  cases reg <;> decide

/-- The 64-bit complement of a 64-bit value is a 64-bit value. -/
theorem compl64_lt {m : Nat} (hm : m < 2 ^ 64) : compl64 m < 2 ^ 64 :=
  Nat.xor_lt_two_pow hm (by decide)

/-- Values that agree under xor-and-mask agree under and-mask. -/
theorem and_mask_eq_of_xor_and_eq_zero {p v m : Nat} (h : (p ^^^ v) &&& m = 0) :
    p &&& m = v &&& m := by
  apply Nat.eq_of_testBit_eq
  intro i
  have hi := congrArg (fun n => n.testBit i) h
  simp only [Nat.testBit_and, Nat.testBit_xor, Nat.zero_testBit] at hi
  simp only [Nat.testBit_and]
  cases hp : p.testBit i <;> cases hv : v.testBit i <;> cases hm2 : m.testBit i <;>
    simp [hp, hv, hm2] at hi ⊢

/-- Masking a host/guest recombination with the guest mask keeps the guest part. -/
theorem split_and_mask {m : Nat} (hm : m < 2 ^ 64) (a b : Nat) :
    ((a &&& compl64 m) ||| (b &&& m)) &&& m = b &&& m := by
  apply Nat.eq_of_testBit_eq
  intro i
  simp only [Nat.testBit_and, Nat.testBit_or, testBit_compl64]
  by_cases hi : i < 64
  · simp only [hi, decide_True]
    cases a.testBit i <;> cases b.testBit i <;> cases m.testBit i <;> rfl
  · rw [testBit_high hm (Nat.le_of_not_lt hi)]
    simp

/-- Masking a host/guest recombination with the host mask keeps the host part. -/
theorem split_and_compl {m : Nat} (hm : m < 2 ^ 64) (a b : Nat) :
    ((a &&& compl64 m) ||| (b &&& m)) &&& compl64 m = a &&& compl64 m := by
  apply Nat.eq_of_testBit_eq
  intro i
  simp only [Nat.testBit_and, Nat.testBit_or, testBit_compl64]
  by_cases hi : i < 64
  · simp only [hi, decide_True]
    cases a.testBit i <;> cases b.testBit i <;> cases m.testBit i <;> rfl
  · rw [testBit_high hm (Nat.le_of_not_lt hi)]
    simp

/-- Splitting a 64-bit value along any mask and recombining gives it back. -/
theorem or_and_compl_self {v : Nat} (m : Nat) (hv : v < 2 ^ 64) :
    (v &&& compl64 m) ||| (v &&& m) = v := by
  apply Nat.eq_of_testBit_eq
  intro i
  simp only [Nat.testBit_and, Nat.testBit_or, testBit_compl64]
  by_cases hi : i < 64
  · simp only [hi, decide_True]
    cases v.testBit i <;> cases m.testBit i <;> rfl
  · rw [testBit_high hv (Nat.le_of_not_lt hi)]
    simp

/-- Truncation to 64 bits is invisible under a 64-bit mask. -/
theorem masked_after_full_write {y : Nat} (hy : y < 2 ^ 64) (x : Nat) :
    (x &&& U64_MAX) &&& y = x &&& y := by
  apply Nat.eq_of_testBit_eq
  intro i
  simp only [Nat.testBit_and, U64_MAX, Nat.testBit_two_pow_sub_one]
  by_cases hi : i < 64
  · simp [hi]
  · rw [testBit_high hy (Nat.le_of_not_lt hi)]
    simp

/-- After a recombining physical write, the guest-owned bits already match the
written value, so a second write of the same value finds no difference. -/
theorem second_write_skips {m : Nat} (hm : m < 2 ^ 64) (p v : Nat) :
    ((((p &&& compl64 m) ||| (v &&& m)) &&& U64_MAX) ^^^ v) &&& m = 0 := by
  apply Nat.eq_of_testBit_eq
  intro i
  simp only [Nat.testBit_and, Nat.testBit_or, Nat.testBit_xor, testBit_compl64,
    Nat.zero_testBit, U64_MAX, Nat.testBit_two_pow_sub_one]
  by_cases hi : i < 64
  · simp only [hi, decide_True]
    cases p.testBit i <;> cases v.testBit i <;> cases m.testBit i <;> rfl
  · rw [testBit_high hm (Nat.le_of_not_lt hi)]
    simp

/-! Helper lemmas about the hardware model. -/

/-- Reading a field just written with a full mask returns the truncated value. -/
theorem read_write_same (hw : Hw) (vtl : GuestVtl) (f : VmcsField) (x : Nat) :
    (hw.write_vmcs64 vtl f U64_MAX x).read_vmcs64 vtl f = x &&& U64_MAX := by
  simp [Hw.read_vmcs64, Hw.write_vmcs64, compl64, Nat.xor_self]

/-- Writing one field leaves every other field unchanged. -/
theorem read_write_other (hw : Hw) (vtl vtl2 : GuestVtl) (f f2 : VmcsField)
    (mask x : Nat) (h : f2 ≠ f) :
    (hw.write_vmcs64 vtl f mask x).read_vmcs64 vtl2 f2 =
      hw.read_vmcs64 vtl2 f2 := by
  simp [Hw.read_vmcs64, Hw.write_vmcs64, h]

/-- Two consecutive full-mask writes to one field collapse to the second. -/
theorem write_vmcs64_collapse (hw : Hw) (vtl : GuestVtl) (f : VmcsField)
    (x y : Nat) :
    (hw.write_vmcs64 vtl f U64_MAX x).write_vmcs64 vtl f U64_MAX y =
      hw.write_vmcs64 vtl f U64_MAX y := by
  unfold Hw.write_vmcs64
  congr 1
  funext v2 f2
  by_cases h : v2 = vtl ∧ f2 = f
  · simp [h, compl64, Nat.xor_self]
  · simp [h]

/-- Unfolding of `VirtualRegister.write` without let bindings. -/
theorem write_eq (r : VirtualRegister) (v : Nat) (hw : Hw) :
    r.write v hw =
      if v &&& compl64 (r.allowed_bits.getD U64_MAX) ≠ 0 then
        (Except.error (.InvalidValue v r.register.name), r, hw, [])
      else if (hw.read_vmcs64 r.vtl r.register.physical_vmcs_field ^^^ v) &&&
          r.register.guest_owned_mask ≠ 0 then
        (Except.ok (), { r with shadow_value := v },
          (hw.write_vmcs64 r.vtl r.register.physical_vmcs_field U64_MAX
            ((hw.read_vmcs64 r.vtl r.register.physical_vmcs_field &&&
                compl64 r.register.guest_owned_mask) |||
              (v &&& r.register.guest_owned_mask))).write_vmcs64 r.vtl
            r.register.shadow_vmcs_field U64_MAX v,
          [HwCall.readCall r.vtl r.register.physical_vmcs_field,
           HwCall.writeCall r.vtl r.register.physical_vmcs_field U64_MAX
             ((hw.read_vmcs64 r.vtl r.register.physical_vmcs_field &&&
                 compl64 r.register.guest_owned_mask) |||
               (v &&& r.register.guest_owned_mask)),
           HwCall.writeCall r.vtl r.register.shadow_vmcs_field U64_MAX v])
      else
        (Except.ok (), { r with shadow_value := v },
          hw.write_vmcs64 r.vtl r.register.shadow_vmcs_field U64_MAX v,
          [HwCall.readCall r.vtl r.register.physical_vmcs_field,
           HwCall.writeCall r.vtl r.register.shadow_vmcs_field U64_MAX v]) := rfl

/-- Unfolding of `VirtualRegister.read`. -/
theorem read_eq (r : VirtualRegister) (hw : Hw) :
    r.read hw =
      (r.shadow_value &&& compl64 r.register.guest_owned_mask) |||
        (hw.read_vmcs64 r.vtl r.register.physical_vmcs_field &&&
          r.register.guest_owned_mask) := rfl

/-- On a legal value, `write` sets only the shadow value of the register. -/
theorem write_legal_reg (r : VirtualRegister) (v : Nat) (hw : Hw)
    (hlegal : v &&& compl64 (r.allowed_bits.getD U64_MAX) = 0) :
    (r.write v hw).2.1 = { r with shadow_value := v } := by
  rw [write_eq, if_neg (by simpa using hlegal)]
  split <;> rfl

/-! Claim theorems. -/

/-- C3: when `allowed_bits` is set and the value has a bit outside it, `write`
returns `InvalidValue` carrying the attempted value and the register name,
issues no hardware call (empty call list, so neither `read_vmcs64` nor
`write_vmcs64` runs), and returns the register and hardware state unchanged. -/
theorem write_invalid_rejects (r : VirtualRegister) (v : Nat) (hw : Hw)
    (ab : Nat) (hab : r.allowed_bits = some ab)
    (hbad : v &&& compl64 ab ≠ 0) :
    r.write v hw =
      (Except.error (.InvalidValue v r.register.name), r, hw, []) := by
  rw [write_eq, hab]
  simp only [Option.getD_some]
  rw [if_pos hbad]

/-- Witness for C3 at a concrete register, value and hardware state. -/
theorem write_invalid_rejects_witness :
    (VirtualRegister.new .Cr0 .Vtl0 0 (some 3)).write 4 ⟨fun _ _ => 0⟩ =
      (Except.error (.InvalidValue 4 "cr0"),
        VirtualRegister.new .Cr0 .Vtl0 0 (some 3), ⟨fun _ _ => 0⟩, []) :=
  write_invalid_rejects _ 4 _ 3 rfl (by decide)

/-- C7: `read` returns the host-owned bits of the stored shadow value combined
with the guest-owned bits of the physical VMCS field.  `read` consumes the
register and hardware state immutably and returns only a value, so it mutates
nothing and has no failure path. -/
theorem read_formula (r : VirtualRegister) (hw : Hw) :
    r.read hw =
      (r.shadow_value &&& compl64 r.register.guest_owned_mask) |||
        (hw.read_vmcs64 r.vtl r.register.physical_vmcs_field &&&
          r.register.guest_owned_mask) := rfl

/-- C8: construction is plain value construction: it always succeeds, takes no
hardware-access argument, and stores the initial value as the shadow value
without any validation against `allowed_bits`. -/
theorem new_fields (reg : ShadowedRegister) (vtl : GuestVtl) (initial_value : Nat)
    (allowed_bits : Option Nat) :
    (VirtualRegister.new reg vtl initial_value allowed_bits).shadow_value
        = initial_value ∧
    (VirtualRegister.new reg vtl initial_value allowed_bits).register = reg ∧
    (VirtualRegister.new reg vtl initial_value allowed_bits).vtl = vtl ∧
    (VirtualRegister.new reg vtl initial_value allowed_bits).allowed_bits
        = allowed_bits :=
  ⟨rfl, rfl, rfl, rfl⟩

/-- C9: with `allowed_bits = none`, every value passes the legality check, so
`write` never returns `InvalidValue`. -/
theorem write_no_mask_ok (r : VirtualRegister) (v : Nat) (hw : Hw)
    (h : r.allowed_bits = none) :
    (r.write v hw).1 = Except.ok () := by
  rw [write_eq, h]
  simp only [Option.getD_none]
  rw [if_neg (by simp [compl64, Nat.xor_self])]
  split <;> rfl

/-- Witness for C9 at a concrete register, value and hardware state. -/
theorem write_no_mask_ok_witness :
    ((VirtualRegister.new .Cr0 .Vtl0 0 none).write 12345 ⟨fun _ _ => 0⟩).1 =
      Except.ok () :=
  write_no_mask_ok _ 12345 _ rfl

/-- C10: the value returned by `read` depends only on the physical VMCS field
of the register: any two hardware states that agree there give the same
result, whatever their shadow-slot (or any other) contents. -/
theorem read_ignores_shadow_slot (r : VirtualRegister) (hw1 hw2 : Hw)
    (h : hw1.read_vmcs64 r.vtl r.register.physical_vmcs_field =
         hw2.read_vmcs64 r.vtl r.register.physical_vmcs_field) :
    r.read hw1 = r.read hw2 := by
  rw [read_eq, read_eq, h]

/-- Witness for C10: two hardware states differing only in the shadow slot. -/
theorem read_ignores_shadow_slot_witness :
    (VirtualRegister.new .Cr0 .Vtl0 5 none).read ⟨fun _ _ => 0⟩ =
      (VirtualRegister.new .Cr0 .Vtl0 5 none).read
        ⟨fun _ f => if f = VmcsField.VMX_VMCS_CR0_READ_SHADOW then 7 else 0⟩ :=
  read_ignores_shadow_slot _ _ _ (by decide)

/-- C2: round trip.  For a legal 64-bit value, after a successful `write` a
`read` against the hardware state the write produced returns exactly that
value. -/
theorem write_read_roundtrip (r : VirtualRegister) (v : Nat) (hw : Hw)
    (hv : v < 2 ^ 64)
    (hlegal : v &&& compl64 (r.allowed_bits.getD U64_MAX) = 0) :
    (r.write v hw).2.1.read (r.write v hw).2.2.1 = v := by
  have hm := guest_owned_mask_lt r.register
  have hps := physical_ne_shadow r.register
  rw [write_eq, if_neg (by simpa using hlegal)]
  by_cases hc : (hw.read_vmcs64 r.vtl r.register.physical_vmcs_field ^^^ v) &&&
      r.register.guest_owned_mask ≠ 0
  · rw [if_pos hc, read_eq]
    dsimp only
    rw [read_write_other _ _ _ _ _ _ _ hps, read_write_same,
      masked_after_full_write hm, split_and_mask hm]
    exact or_and_compl_self _ hv
  · rw [if_neg hc, read_eq]
    dsimp only
    rw [read_write_other _ _ _ _ _ _ _ hps,
      and_mask_eq_of_xor_and_eq_zero (not_not.mp hc)]
    exact or_and_compl_self _ hv

/-- Witness for C2 at a concrete register, value and hardware state. -/
theorem write_read_roundtrip_witness :
    ((VirtualRegister.new .Cr0 .Vtl0 0 (some 3)).write 1 ⟨fun _ _ => 0⟩).2.1.read
        ((VirtualRegister.new .Cr0 .Vtl0 0 (some 3)).write 1 ⟨fun _ _ => 0⟩).2.2.1 =
      1 :=
  write_read_roundtrip _ 1 _ (by decide) (by decide)

/-- C4: write postcondition and physical-slot frame.  After a successful legal
`write`, the register's shadow value equals the written value, the physical
slot's guest-owned bits equal the written value's guest-owned bits, and the
physical slot's host-owned bits are unchanged from before the call. -/
theorem write_postcondition (r : VirtualRegister) (v : Nat) (hw : Hw)
    (hlegal : v &&& compl64 (r.allowed_bits.getD U64_MAX) = 0) :
    (r.write v hw).2.1.shadow_value = v ∧
    (r.write v hw).2.2.1.read_vmcs64 r.vtl r.register.physical_vmcs_field &&&
        r.register.guest_owned_mask = v &&& r.register.guest_owned_mask ∧
    (r.write v hw).2.2.1.read_vmcs64 r.vtl r.register.physical_vmcs_field &&&
        compl64 r.register.guest_owned_mask =
      hw.read_vmcs64 r.vtl r.register.physical_vmcs_field &&&
        compl64 r.register.guest_owned_mask := by
  have hm := guest_owned_mask_lt r.register
  have hps := physical_ne_shadow r.register
  rw [write_eq, if_neg (by simpa using hlegal)]
  by_cases hc : (hw.read_vmcs64 r.vtl r.register.physical_vmcs_field ^^^ v) &&&
      r.register.guest_owned_mask ≠ 0
  · rw [if_pos hc]
    refine ⟨rfl, ?_, ?_⟩
    · dsimp only
      rw [read_write_other _ _ _ _ _ _ _ hps, read_write_same,
        masked_after_full_write hm, split_and_mask hm]
    · dsimp only
      rw [read_write_other _ _ _ _ _ _ _ hps, read_write_same,
        masked_after_full_write (compl64_lt hm), split_and_compl hm]
  · rw [if_neg hc]
    refine ⟨rfl, ?_, ?_⟩
    · dsimp only
      rw [read_write_other _ _ _ _ _ _ _ hps,
        and_mask_eq_of_xor_and_eq_zero (not_not.mp hc)]
    · dsimp only
      rw [read_write_other _ _ _ _ _ _ _ hps]

/-- Witness for C4 at a concrete register, value and hardware state. -/
theorem write_postcondition_witness :
    ((VirtualRegister.new .Cr0 .Vtl0 0 (some 3)).write 1
        ⟨fun _ _ => 0⟩).2.1.shadow_value = 1 ∧
    ((VirtualRegister.new .Cr0 .Vtl0 0 (some 3)).write 1
          ⟨fun _ _ => 0⟩).2.2.1.read_vmcs64 GuestVtl.Vtl0
          VmcsField.VMX_VMCS_GUEST_CR0 &&&
        ShadowedRegister.Cr0.guest_owned_mask =
      1 &&& ShadowedRegister.Cr0.guest_owned_mask ∧
    ((VirtualRegister.new .Cr0 .Vtl0 0 (some 3)).write 1
          ⟨fun _ _ => 0⟩).2.2.1.read_vmcs64 GuestVtl.Vtl0
          VmcsField.VMX_VMCS_GUEST_CR0 &&&
        compl64 ShadowedRegister.Cr0.guest_owned_mask =
      Hw.read_vmcs64 ⟨fun _ _ => 0⟩ GuestVtl.Vtl0
          VmcsField.VMX_VMCS_GUEST_CR0 &&&
        compl64 ShadowedRegister.Cr0.guest_owned_mask :=
  write_postcondition _ 1 _ (by decide)

/-- C5: selective hardware write.  On a legal value, the call list contains a
write to the physical VMCS field exactly when the value disagrees with the
current physical value on a guest-owned bit, while a write to the shadow VMCS
field always occurs. -/
theorem write_selective_hw (r : VirtualRegister) (v : Nat) (hw : Hw)
    (hlegal : v &&& compl64 (r.allowed_bits.getD U64_MAX) = 0) :
    ((r.write v hw).2.2.2.any
        (HwCall.isWriteTo r.register.physical_vmcs_field) = true ↔
      (hw.read_vmcs64 r.vtl r.register.physical_vmcs_field ^^^ v) &&&
        r.register.guest_owned_mask ≠ 0) ∧
    (r.write v hw).2.2.2.any
        (HwCall.isWriteTo r.register.shadow_vmcs_field) = true := by
  have hps := physical_ne_shadow r.register
  rw [write_eq, if_neg (by simpa using hlegal)]
  by_cases hc : (hw.read_vmcs64 r.vtl r.register.physical_vmcs_field ^^^ v) &&&
      r.register.guest_owned_mask ≠ 0
  · rw [if_pos hc]
    constructor
    · simp [HwCall.isWriteTo, hc]
    · simp [HwCall.isWriteTo]
  · rw [if_neg hc]
    constructor
    · simp [HwCall.isWriteTo, hps.symm, hc]
    · simp [HwCall.isWriteTo]

/-- Witness for C5 at a concrete register, value and hardware state. -/
theorem write_selective_hw_witness :
    (((VirtualRegister.new .Cr0 .Vtl0 0 (some 3)).write 1 ⟨fun _ _ => 0⟩).2.2.2.any
        (HwCall.isWriteTo VmcsField.VMX_VMCS_GUEST_CR0) = true ↔
      (Hw.read_vmcs64 ⟨fun _ _ => 0⟩ GuestVtl.Vtl0
            VmcsField.VMX_VMCS_GUEST_CR0 ^^^ 1) &&&
          ShadowedRegister.Cr0.guest_owned_mask ≠ 0) ∧
    ((VirtualRegister.new .Cr0 .Vtl0 0 (some 3)).write 1 ⟨fun _ _ => 0⟩).2.2.2.any
        (HwCall.isWriteTo VmcsField.VMX_VMCS_CR0_READ_SHADOW) = true :=
  write_selective_hw _ 1 _ (by decide)

/-- C6: idempotence.  Writing the same legal value twice in a row (the second
write applied to the state the first one produced) succeeds and returns the
same register and hardware state as the first write alone. -/
theorem write_idempotent (r : VirtualRegister) (v : Nat) (hw : Hw)
    (hlegal : v &&& compl64 (r.allowed_bits.getD U64_MAX) = 0) :
    ((r.write v hw).2.1.write v (r.write v hw).2.2.1).1 = Except.ok () ∧
    ((r.write v hw).2.1.write v (r.write v hw).2.2.1).2.1 = (r.write v hw).2.1 ∧
    ((r.write v hw).2.1.write v (r.write v hw).2.2.1).2.2.1 =
      (r.write v hw).2.2.1 := by
  have hm := guest_owned_mask_lt r.register
  have hps := physical_ne_shadow r.register
  rw [write_eq r v hw, if_neg (by simpa using hlegal)]
  by_cases hc : (hw.read_vmcs64 r.vtl r.register.physical_vmcs_field ^^^ v) &&&
      r.register.guest_owned_mask ≠ 0
  · rw [if_pos hc]
    dsimp only
    rw [write_eq]
    dsimp only
    rw [if_neg (by simpa using hlegal)]
    rw [if_neg (by
      rw [read_write_other _ _ _ _ _ _ _ hps, read_write_same]
      simpa using second_write_skips hm
        (hw.read_vmcs64 r.vtl r.register.physical_vmcs_field) v)]
    exact ⟨rfl, rfl, write_vmcs64_collapse _ _ _ _ _⟩
  · rw [if_neg hc]
    dsimp only
    rw [write_eq]
    dsimp only
    rw [if_neg (by simpa using hlegal)]
    rw [if_neg (by
      rw [read_write_other _ _ _ _ _ _ _ hps]
      exact hc)]
    exact ⟨rfl, rfl, write_vmcs64_collapse _ _ _ _ _⟩

/-- Witness for C6 at a concrete register, value and hardware state. -/
theorem write_idempotent_witness :
    (((VirtualRegister.new .Cr0 .Vtl0 0 (some 3)).write 1 ⟨fun _ _ => 0⟩).2.1.write 1
        ((VirtualRegister.new .Cr0 .Vtl0 0 (some 3)).write 1 ⟨fun _ _ => 0⟩).2.2.1).1 =
      Except.ok () ∧
    (((VirtualRegister.new .Cr0 .Vtl0 0 (some 3)).write 1 ⟨fun _ _ => 0⟩).2.1.write 1
        ((VirtualRegister.new .Cr0 .Vtl0 0 (some 3)).write 1 ⟨fun _ _ => 0⟩).2.2.1).2.1 =
      ((VirtualRegister.new .Cr0 .Vtl0 0 (some 3)).write 1 ⟨fun _ _ => 0⟩).2.1 ∧
    (((VirtualRegister.new .Cr0 .Vtl0 0 (some 3)).write 1 ⟨fun _ _ => 0⟩).2.1.write 1
        ((VirtualRegister.new .Cr0 .Vtl0 0 (some 3)).write 1 ⟨fun _ _ => 0⟩).2.2.1).2.2.1 =
      ((VirtualRegister.new .Cr0 .Vtl0 0 (some 3)).write 1 ⟨fun _ _ => 0⟩).2.2.1 :=
  write_idempotent _ 1 _ (by decide)

/-- C1: ownership partition across asynchronous guest mutation.  After a
successful legal `write` of `v`, if hardware then holds any physical value
that differs from the written physical value only in guest-owned bits, a
`read` against that hardware state returns the host-owned bits of `v` and the
guest-owned bits of the mutated physical value. -/
theorem ownership_partition (r : VirtualRegister) (v : Nat) (hw hw2 : Hw)
    (p2 : Nat)
    (hlegal : v &&& compl64 (r.allowed_bits.getD U64_MAX) = 0)
    (_hmut : (p2 ^^^ (r.write v hw).2.2.1.read_vmcs64 r.vtl
          r.register.physical_vmcs_field) &&&
        compl64 r.register.guest_owned_mask = 0)
    (hp2 : hw2.read_vmcs64 r.vtl r.register.physical_vmcs_field = p2) :
    ((r.write v hw).2.1.read hw2) &&& compl64 r.register.guest_owned_mask =
        v &&& compl64 r.register.guest_owned_mask ∧
    ((r.write v hw).2.1.read hw2) &&& r.register.guest_owned_mask =
        p2 &&& r.register.guest_owned_mask := by
  have hm := guest_owned_mask_lt r.register
  rw [write_legal_reg r v hw hlegal, read_eq]
  dsimp only
  rw [hp2]
  exact ⟨split_and_compl hm v p2, split_and_mask hm v p2⟩

/-- Witness for C1: after writing 1 (PE) the hardware flips PG, a guest-owned
bit; the read shows PG live while host-owned bits still come from the write. -/
theorem ownership_partition_witness :
    (((VirtualRegister.new .Cr0 .Vtl0 0
            (some (X64_CR0_PE ||| X64_CR0_PG))).write 1 ⟨fun _ _ => 0⟩).2.1.read
          ⟨fun _ f => if f = VmcsField.VMX_VMCS_GUEST_CR0 then 0x80000001
            else 0⟩) &&&
        compl64 ShadowedRegister.Cr0.guest_owned_mask =
      1 &&& compl64 ShadowedRegister.Cr0.guest_owned_mask ∧
    (((VirtualRegister.new .Cr0 .Vtl0 0
            (some (X64_CR0_PE ||| X64_CR0_PG))).write 1 ⟨fun _ _ => 0⟩).2.1.read
          ⟨fun _ f => if f = VmcsField.VMX_VMCS_GUEST_CR0 then 0x80000001
            else 0⟩) &&&
        ShadowedRegister.Cr0.guest_owned_mask =
      0x80000001 &&& ShadowedRegister.Cr0.guest_owned_mask :=
  ownership_partition _ 1 _ _ 0x80000001 (by decide) (by decide) (by decide)

end TdxVirtReg
